import Mathlib

/-!
Shallow embedding of the session-scoped retrieval-and-context engine of the
`5g_roc_backend` repository, together with theorems settling the frozen claims
about it.

Conventions of the embedding:
* Mongo collections become Lean lists of records; `insert_one` is list append,
  `find` with a filter is `List.filter`, `find_one` is `List.find?`, and a
  Mongo sort on `created_at` is an explicit insertion sort on the embedded
  timestamp.
* ISO-8601 timestamps are modelled as abstract `Nat` ticks; routes that read
  the clock take the fresh tick as an explicit argument.
* Document/session/message object ids are modelled as `Nat`, supplied
  explicitly where the code generates fresh `ObjectId`s.
* External collaborators (text extraction, chunking, embedding, the vector
  similarity ranking, the LLM stream, the network summary) are passed in as
  explicit arguments or oracle values; the visibility *filter* handed to the
  vector index is embedded exactly, since the claims are about scope.
* Python exceptions surfaced as `HTTPException(code, detail)` become
  `Except (Nat × String)` values; the filesystem is the list of present paths.
-/

namespace RocBackend

/-! ## src/utils/message_utils.py -/

/-- Python `str.strip()` on the character list of a string: drop whitespace
from both ends. -/
def pyStrip (l : List Char) : List Char :=
  ((l.dropWhile Char.isWhitespace).reverse.dropWhile Char.isWhitespace).reverse

/-- Python `str.replace` of the newline character by a space; the pattern is a
single character, so the replacement is a per-character map. -/
def replaceNewlines (l : List Char) : List Char :=
  l.map (fun c => if c = '\n' then ' ' else c)

/-- `compress_message(content, max_len)` from src/utils/message_utils.py:
strip, replace newlines by spaces, return unchanged when the result fits in
`max_len` characters, otherwise truncate to `max_len - 3` characters and
append an ellipsis. -/
def compressMessageWith (maxLen : Nat) (content : String) : String :=
  let c := replaceNewlines (pyStrip content.data)
  if c.length ≤ maxLen then String.mk c
  else String.mk (c.take (maxLen - 3)) ++ "..."

/-- `compress_message` at its default `max_len = 200`, the form used at every
call site in the repository. -/
def compress_message (content : String) : String :=
  compressMessageWith 200 content

/-- Python slice `s[:n]`. -/
def strTake (n : Nat) (s : String) : String :=
  String.mk (s.data.take n)

/-! ## Data model (src/routes/resources_routes.py, src/rag) -/

/-- A row of the Mongo `documents` collection, as written by `upload_resource`
(src/routes/resources_routes.py lines 131-140) and by the startup common
embedder (`owner_user_id` is null there, hence the `Option`). -/
structure DocumentRec where
  id : Nat
  filename : String
  docType : String
  ownerUserId : Option String
  path : String
  sizeKb : Nat
  fileHash : String
  uploadedAt : Nat
deriving DecidableEq, Repr

/-- One entry of the Chroma `knowledge_chunks` collection: the chunk text plus
the metadata written at indexing time (`doc_id`, `user_id`, `doc_type`);
shared chunks carry the `"COMMON"` user marker. -/
structure ChunkEntry where
  cid : String
  text : String
  docId : Nat
  userId : String
  docType : String
deriving DecidableEq, Repr

/-- A row of the Mongo `user_hidden_docs` collection, inserted by
`unlink_common_resource`. -/
structure HideRecord where
  userId : String
  docId : Nat
  hiddenAt : Nat
deriving DecidableEq, Repr

/-- The resource-side shared state: document metadata rows, the vector index
entries, the hide records, and the set of file paths present on disk. -/
structure RegState where
  documents : List DocumentRec
  chunks : List ChunkEntry
  hidden : List HideRecord
  files : List String
deriving DecidableEq, Repr

/-- A row of the Mongo `chat_sessions` collection (src/routes/chat_routes.py
lines 84-93): `stype` is the `type` field, `selectedDocs` the per-session
document filter. -/
structure SessionRec where
  id : Nat
  userId : String
  stype : String
  title : String
  selectedDocs : List Nat
  createdAt : Nat
  updatedAt : Nat
deriving DecidableEq, Repr

/-- One retrieved passage as returned by `retrieve_docs_for_user`
(src/rag/rag_retriever.py lines 60-65); the similarity score is omitted as it
is produced by the external index. -/
structure RetrievedDoc where
  text : String
  docId : Nat
  filename : String
deriving DecidableEq, Repr

/-- A row of the Mongo `chat_messages` collection (src/routes/chat_routes.py
lines 187-195 and 279-288). -/
structure MessageRec where
  id : Nat
  sessionId : Nat
  userId : String
  role : String
  content : String
  shortContent : String
  includedInContext : Bool
  createdAt : Nat
  sources : List RetrievedDoc
deriving DecidableEq, Repr

/-- The chat-side shared state: the `chat_sessions` and `chat_messages`
collections. -/
structure ChatState where
  sessions : List SessionRec
  messages : List MessageRec
deriving DecidableEq, Repr

/-! ## src/routes/resources_routes.py -/

/-- Membership of a `(user, document)` pair in the `user_hidden_docs`
collection, as computed by `get_resources` (lines 56-62). -/
def isHidden (st : RegState) (userId : String) (docId : Nat) : Bool :=
  st.hidden.any (fun h => h.userId == userId && h.docId == docId)

/-- `get_resources` (lines 52-75): every document, skipping common documents
hidden by the caller and user documents owned by someone else. -/
def get_resources (st : RegState) (userId : String) : List DocumentRec :=
  st.documents.filter (fun doc =>
    !(doc.docType == "common" && isHidden st userId doc.id) &&
    !(doc.docType == "user" && doc.ownerUserId != some userId))

/-- The identity-scoped storage path used by `upload_resource` (line 90). -/
def userFilePath (userId filename : String) : String :=
  "./resources/users/" ++ userId ++ "/" ++ filename

/-- `upload_resource` (lines 79-142), after `validate_file` has accepted the
extension and size. The saved bytes, their hash, the extracted chunk texts and
the fresh object id are supplied by external collaborators. Steps, in source
order: save the file, compute the hash, check for a duplicate (removing the
saved file and raising 400 on a hit), index the chunks, insert the metadata
row. -/
def upload_resource (st : RegState) (userId filename fileHash : String)
    (chunks : List String) (sizeKb : Nat) (newDocId : Nat) (now : Nat) :
    Except (Nat × String) Unit × RegState :=
  let path := userFilePath userId filename
  let st1 : RegState := { st with files := st.files ++ [path] }
  match st1.documents.find? (fun d =>
      d.ownerUserId == some userId && d.fileHash == fileHash) with
  | some _ =>
      (.error (400, "Duplicate document already uploaded"),
       { st1 with files := st1.files.filter (fun p => p ≠ path) })
  | none =>
      let newChunks := chunks.enum.map (fun it =>
        { cid := toString newDocId ++ "_" ++ toString it.1, text := it.2,
          docId := newDocId, userId := userId, docType := "user" : ChunkEntry })
      let newDoc : DocumentRec :=
        { id := newDocId, filename := filename, docType := "user",
          ownerUserId := some userId, path := path, sizeKb := sizeKb,
          fileHash := fileHash, uploadedAt := now }
      (.ok (),
       { st1 with chunks := st1.chunks ++ newChunks,
                  documents := st1.documents ++ [newDoc] })

/-- The three destructive steps of `delete_resource`, in the order the code
performs them, recorded as an explicit trace. -/
inductive DelOp where
  | removeFile
  | deleteIndex
  | deleteMeta
deriving DecidableEq, Repr

/-- `delete_resource` (lines 147-172): 404 when the document row is absent,
403 for common documents, 403 for another identity's document; otherwise
remove the backing file if it exists, then the vector entries Matching the
document id, then the metadata row. The middle component is the trace of
destructive steps actually performed. -/
def delete_resource (st : RegState) (userId : String) (docId : Nat) :
    Except (Nat × String) Unit × List DelOp × RegState :=
  match st.documents.find? (fun d => d.id == docId) with
  | none => (.error (404, "Document not found"), [], st)
  | some doc =>
    if doc.docType == "common" then
      (.error (403, "Common documents cannot be deleted"), [], st)
    else if doc.ownerUserId != some userId then
      (.error (403, "Not allowed"), [], st)
    else
      let fileStep : List DelOp × RegState :=
        if st.files.contains doc.path then
          ([DelOp.removeFile], { st with files := st.files.filter (fun p => p ≠ doc.path) })
        else ([], st)
      let st1 := fileStep.2
      let st2 := { st1 with chunks := st1.chunks.filter (fun c => c.docId ≠ docId) }
      let st3 := { st2 with documents := st2.documents.filter (fun d => d.id ≠ docId) }
      (.ok (), fileStep.1 ++ [DelOp.deleteIndex, DelOp.deleteMeta], st3)

/-- `unlink_common_resource` (lines 176-193): 400 unless the document exists
and is common; otherwise insert a hide record (unconditionally — no upsert and
no uniqueness check on the collection). -/
def unlink_common_resource (st : RegState) (userId : String) (docId : Nat)
    (now : Nat) : Except (Nat × String) Unit × RegState :=
  match st.documents.find? (fun d => d.id == docId) with
  | none => (.error (400, "Invalid document"), st)
  | some doc =>
    if doc.docType != "common" then (.error (400, "Invalid document"), st)
    else
      (.ok (),
       { st with hidden := st.hidden ++
           [{ userId := userId, docId := docId, hiddenAt := now }] })

/-! ## src/rag/rag_retriever.py -/

/-- The Chroma `where` filter built by `retrieve_docs_for_user` (lines 28-35):
with a non-empty per-session selection, membership of the chunk's `doc_id` in
the selection; with an empty selection, membership of the chunk's `user_id` in
the two-element set of the caller's id and the `"COMMON"` marker. -/
def doc_filter (session : SessionRec) (userId : String) (c : ChunkEntry) : Bool :=
  if !session.selectedDocs.isEmpty then session.selectedDocs.contains c.docId
  else c.userId == userId || c.userId == "COMMON"

/-- The population of index chunks the vector query of
`retrieve_docs_for_user` ranges over: exactly those passing `doc_filter`.
Similarity ranking and the cap `k` are applied by the external index inside
this population. -/
def retrievalScope (st : RegState) (session : SessionRec) (userId : String) :
    List ChunkEntry :=
  st.chunks.filter (doc_filter session userId)

/-- Formalisation of the SPEC wording for claim C1 (not of the code), kept for
refinement comparison: under an empty selection a chunk is in scope iff its
document is privately owned by the asking identity, or is shared and carries
no hide record for that identity. -/
def specScopeEmptySelection (st : RegState) (userId : String) (c : ChunkEntry) : Bool :=
  (c.docType == "user" && c.userId == userId) ||
  (c.docType == "common" && !(isHidden st userId c.docId))

/-! ## src/routes/chat_routes.py -/

/-- Insertion step of the embedded Mongo sort on `created_at` descending. -/
def insertByCreatedDesc (m : MessageRec) : List MessageRec → List MessageRec
  | [] => [m]
  | x :: xs =>
    if x.createdAt ≤ m.createdAt then m :: x :: xs
    else x :: insertByCreatedDesc m xs

/-- The Mongo `sort("created_at", -1)` of the history query, embedded as an
insertion sort on the timestamp. -/
def sortByCreatedDesc : List MessageRec → List MessageRec
  | [] => []
  | m :: ms => insertByCreatedDesc m (sortByCreatedDesc ms)

/-- Insertion step of the embedded Mongo sort on `created_at` ascending. -/
def insertByCreatedAsc (m : MessageRec) : List MessageRec → List MessageRec
  | [] => [m]
  | x :: xs =>
    if m.createdAt ≤ x.createdAt then m :: x :: xs
    else x :: insertByCreatedAsc m xs

/-- The Mongo `sort("created_at", 1)` used by `get_session_messages`. -/
def sortByCreatedAsc : List MessageRec → List MessageRec
  | [] => []
  | m :: ms => insertByCreatedAsc m (sortByCreatedAsc ms)

/-- The history query of `send_message` (lines 210-217): messages of the
session with `included_in_context = true`, fetched newest-first, limited to
12, then reversed to chronological order. -/
def fetchHistory (msgs : List MessageRec) (sid : Nat) : List MessageRec :=
  ((sortByCreatedDesc (msgs.filter (fun m =>
      m.sessionId == sid && m.includedInContext))).take 12).reverse

/-- Rendering of the history block (lines 220-224): one `Role: content` line
per record, joined by newlines, with a fixed placeholder when there are no
records. -/
def historyText (records : List MessageRec) : String :=
  if records.isEmpty then "No prior messages."
  else String.intercalate "\n" (records.map (fun m =>
    (if m.role == "user" then "User" else "Assistant") ++ ": " ++ m.content))

/-- The knowledge-mode auxiliary context of `send_message` (lines 228-240): on
a successful retrieval, the passage texts joined by blank lines (or a
placeholder when none); on a retrieval exception, the warning string. The
second component models the Python local variable `docs`, which is bound only
when the retrieval call returned. -/
def knowledgeExtra (retrieval : Except String (List RetrievedDoc)) :
    String × Option (List RetrievedDoc) :=
  match retrieval with
  | .ok ds =>
      let docsText :=
        if !ds.isEmpty then String.intercalate "\n\n" (ds.map (fun d => d.text))
        else "No relevant documents found."
      ("Relevant documents:\n" ++ docsText, some ds)
  | .error e => ("(Warning: document retrieval failed: " ++ e ++ ")", none)

/-- The analyst-mode auxiliary context of `send_message` (lines 241-246). -/
def analystExtra (netSummary : Except String String) : String :=
  match netSummary with
  | .ok t => "Current network summary:\n" ++ t
  | .error e => "(Warning: network summary failed: " ++ e ++ ")"

/-- Outcome of the generation collaborator `llm.stream`: either the fragment
sequence of a normally terminating stream, or an exception raised before any
fragment is yielded. -/
inductive GenOutcome where
  | ok (fragments : List String)
  | failEarly (err : String)
deriving DecidableEq, Repr

/-- What the caller of `send_message` observes: a completed stream (with the
assembled request and the full buffered answer), a stream broken by a
generation exception, or an HTTP error raised before streaming started. -/
inductive SendOutcome where
  | streamed (request answer : String)
  | streamFailed (err : String)
  | httpError (code : Nat) (detail : String)
deriving DecidableEq, Repr

/-- `send_message` (lines 171-298). External effects are oracle arguments: the
awaited `retrieve_docs_for_user` call (which may raise), the
`build_network_summary` call, the `llm.stream` call, the fresh message object
ids and the clock ticks. Source order: 404 check; append the user message;
auto-title on the first message; fetch the bounded history; build the
auxiliary context (exceptions downgraded to warning strings); assemble the
request; read the local `docs` for the frozen sources snapshot — a NameError
when retrieval raised, caught by the outer handler as a 500; stream; on
natural completion append the assistant message and bump `updated_at`. -/
def send_message (st : ChatState) (userId : String) (sid : Nat)
    (message : String) (retrieval : Except String (List RetrievedDoc))
    (netSummary : Except String String) (gen : GenOutcome)
    (userMsgId asstMsgId : Nat) (now1 now2 : Nat) : SendOutcome × ChatState :=
  match st.sessions.find? (fun s => s.id == sid) with
  | none => (.httpError 404 "Session not found", st)
  | some session =>
    if session.userId ≠ userId then (.httpError 404 "Session not found", st)
    else
      let userMsg : MessageRec :=
        { id := userMsgId, sessionId := sid, userId := userId, role := "user",
          content := message, shortContent := compress_message message,
          includedInContext := true, createdAt := now1, sources := [] }
      let msgs1 := st.messages ++ [userMsg]
      let msgCount := (msgs1.filter (fun m => m.sessionId == sid)).length
      let sessions1 :=
        if msgCount == 1 then
          st.sessions.map (fun s =>
            if s.id == sid then
              { s with title := strTake 50 (compress_message message) }
            else s)
        else st.sessions
      let st1 : ChatState := { sessions := sessions1, messages := msgs1 }
      let historyBlock := historyText (fetchHistory msgs1 sid)
      let extraContext :=
        if session.stype == "knowledge" then (knowledgeExtra retrieval).1
        else analystExtra netSummary
      let finalRequest :=
        "Here is prior conversation context:\n" ++ historyBlock ++
        "\n\nAdditional context:\n" ++ extraContext ++
        "\n\nUser question:\n" ++ message
      -- docs_for_tooltip = docs if mode == "knowledge" else []: reading the
      -- unbound local docs raises NameError when retrieval raised; the outer
      -- try/except turns it into HTTPException(500, LLM error text).
      if session.stype == "knowledge" && ((knowledgeExtra retrieval).2).isNone then
        (.httpError 500 "LLM error: NameError on docs", st1)
      else
        let docsForTooltip :=
          if session.stype == "knowledge" then ((knowledgeExtra retrieval).2).getD []
          else []
        match gen with
        | .failEarly err => (.streamFailed err, st1)
        | .ok fragments =>
            let fullAnswer := String.join fragments
            let asstMsg : MessageRec :=
              { id := asstMsgId, sessionId := sid, userId := userId,
                role := "assistant", content := fullAnswer,
                shortContent := compress_message fullAnswer,
                includedInContext := true, createdAt := now2,
                sources := docsForTooltip }
            (.streamed finalRequest fullAnswer,
             { sessions := st1.sessions.map (fun s =>
                 if s.id == sid then { s with updatedAt := now2 } else s),
               messages := st1.messages ++ [asstMsg] })

/-- `update_memory` (lines 143-164): 404 unless the session exists and is the
caller's; otherwise iterate every message of the session and set its flag to
membership of its id in the supplied set. -/
def update_memory (st : ChatState) (userId : String) (sid : Nat)
    (includedIds : List Nat) : Except (Nat × String) Unit × ChatState :=
  match st.sessions.find? (fun s => s.id == sid) with
  | none => (.error (404, "Session not found"), st)
  | some session =>
    if session.userId ≠ userId then (.error (404, "Session not found"), st)
    else
      (.ok (),
       { st with messages := st.messages.map (fun m =>
           if m.sessionId == sid then
             { m with includedInContext := includedIds.contains m.id }
           else m) })

/-- `get_session_messages` (lines 112-135): 404 unless the session exists and
is the caller's; otherwise the session's messages sorted by `created_at`
ascending. -/
def get_session_messages (st : ChatState) (userId : String) (sid : Nat) :
    Except (Nat × String) (List MessageRec) :=
  match st.sessions.find? (fun s => s.id == sid) with
  | none => .error (404, "Session not found")
  | some session =>
    if session.userId ≠ userId then .error (404, "Session not found")
    else .ok (sortByCreatedAsc (st.messages.filter (fun m => m.sessionId == sid)))

/-! ## Concrete states used by counterexamples and witnesses -/

/-- A shared (common) document with content hash `h1`. -/
def exCommonDoc : DocumentRec :=
  { id := 1, filename := "guide.pdf", docType := "common", ownerUserId := none,
    path := "./resources/common/guide.pdf", sizeKb := 4, fileHash := "h1",
    uploadedAt := 0 }

/-- An indexed chunk of the shared document. -/
def exCommonChunk : ChunkEntry :=
  { cid := "1_0", text := "5G latency is 20ms.", docId := 1,
    userId := "COMMON", docType := "common" }

/-- Resource state holding only the shared document and its chunk. -/
def exRegState : RegState :=
  { documents := [exCommonDoc], chunks := [exCommonChunk], hidden := [],
    files := ["./resources/common/guide.pdf"] }

/-- `exRegState` after identity `u` hides the shared document once. -/
def exRegStateHidden : RegState :=
  (unlink_common_resource exRegState "u" 1 3).2

/-- `exRegStateHidden` after `u` hides the same document a second time. -/
def exRegStateHiddenTwice : RegState :=
  (unlink_common_resource exRegStateHidden "u" 1 4).2

/-- A knowledge session of identity `u` with an empty document selection. -/
def exSession : SessionRec :=
  { id := 1, userId := "u", stype := "knowledge", title := "5G Knowledge Chat",
    selectedDocs := [], createdAt := 0, updatedAt := 9 }

/-- Chat state holding only `exSession` and no messages. -/
def exChatState : ChatState :=
  { sessions := [exSession], messages := [] }

/-- A private document of identity `alice`. -/
def exPrivateDoc : DocumentRec :=
  { id := 1, filename := "notes.txt", docType := "user",
    ownerUserId := some "alice", path := "./resources/users/alice/notes.txt",
    sizeKb := 1, fileHash := "h2", uploadedAt := 0 }

/-- Resource state holding `alice`'s private document, its chunk and its
backing file. -/
def exPrivateState : RegState :=
  { documents := [exPrivateDoc],
    chunks := [{ cid := "1_0", text := "note body", docId := 1,
                 userId := "alice", docType := "user" }],
    hidden := [], files := ["./resources/users/alice/notes.txt"] }

/-- `exPrivateState` with the backing file already missing. -/
def exPrivateStateNoFile : RegState :=
  { exPrivateState with files := [] }

/-- Three included messages of session 1, used by the memory-curation
witness. -/
def exMemoryState : ChatState :=
  { sessions := [exSession],
    messages :=
      [{ id := 1, sessionId := 1, userId := "u", role := "user",
         content := "m1", shortContent := "m1", includedInContext := true,
         createdAt := 1, sources := [] },
       { id := 2, sessionId := 1, userId := "u", role := "assistant",
         content := "m2", shortContent := "m2", includedInContext := true,
         createdAt := 2, sources := [] },
       { id := 3, sessionId := 1, userId := "u", role := "user",
         content := "m3", shortContent := "m3", includedInContext := true,
         createdAt := 3, sources := [] }] }

/-- Thirteen included messages of session 1 with increasing timestamps. -/
def exManyMessages : List MessageRec :=
  (List.range 13).map (fun i =>
    { id := i + 1, sessionId := 1, userId := "u", role := "user",
      content := "m", shortContent := "m", includedInContext := true,
      createdAt := i + 1, sources := [] })

/-! ## Helper lemmas -/

theorem data_append (s t : String) : (s ++ t).data = s.data ++ t.data := by
  cases s; cases t; rfl

theorem newline_not_mem_replaceNewlines (l : List Char) :
    '\n' ∉ replaceNewlines l := by
  intro h
  rw [replaceNewlines, List.mem_map] at h
  obtain ⟨c, _, hc⟩ := h
  by_cases hcn : c = '\n'
  · rw [if_pos hcn] at hc
    exact absurd hc (by decide)
  · rw [if_neg hcn] at hc
    exact hcn hc

theorem unlink_chunks_unchanged (st : RegState) (u : String) (d n : Nat) :
    ((unlink_common_resource st u d n).2).chunks = st.chunks := by
  unfold unlink_common_resource
  split
  · rfl
  · split <;> rfl

theorem unlink_documents_unchanged (st : RegState) (u : String) (d n : Nat) :
    ((unlink_common_resource st u d n).2).documents = st.documents := by
  unfold unlink_common_resource
  split
  · rfl
  · split <;> rfl

/-! ## Claim C10 -/

/-- Claim C10: `compress_message` at the default limit returns at most 200
characters with no newline; when the stripped, newline-replaced form of the
input has at most 200 characters the result is exactly that normalized form,
and otherwise the result is its first 197 characters followed by the
three-dot ellipsis (in particular it ends with the ellipsis). -/
theorem compress_message_normalizes_and_bounds (s : String) :
    (compress_message s).data.length ≤ 200 ∧
    '\n' ∉ (compress_message s).data ∧
    ((replaceNewlines (pyStrip s.data)).length ≤ 200 →
      (compress_message s).data = replaceNewlines (pyStrip s.data)) ∧
    (200 < (replaceNewlines (pyStrip s.data)).length →
      (compress_message s).data =
        (replaceNewlines (pyStrip s.data)).take 197 ++ "...".data) := by
  unfold compress_message compressMessageWith
  by_cases h : (replaceNewlines (pyStrip s.data)).length ≤ 200
  · rw [if_pos h]
    refine ⟨h, newline_not_mem_replaceNewlines _, fun _ => rfl, fun hlt => ?_⟩
    omega
  · rw [if_neg h]
    push_neg at h
    constructor
    · rw [data_append]
      have hmk : (String.mk ((replaceNewlines (pyStrip s.data)).take (200 - 3))).data
          = (replaceNewlines (pyStrip s.data)).take (200 - 3) := rfl
      rw [hmk, List.length_append, List.length_take]
      have : "...".data.length = 3 := by decide
      omega
    constructor
    · rw [data_append]
      intro hmem
      rcases List.mem_append.mp hmem with hmem | hmem
      · exact newline_not_mem_replaceNewlines _
          ((List.take_sublist _ _).mem hmem)
      · exact absurd hmem (by decide)
    constructor
    · intro hle
      omega
    · intro _
      rw [data_append]

/-- Witness for C10 at a concrete string (short-input branch). -/
theorem compress_message_normalizes_and_bounds_witness :
    ('\n' ∉ (compress_message "  a\nb  ").data) ∧
    (compress_message "  a\nb  ").data = replaceNewlines (pyStrip "  a\nb  ".data) :=
  ⟨(compress_message_normalizes_and_bounds "  a\nb  ").2.1,
   (compress_message_normalizes_and_bounds "  a\nb  ").2.2.1 (by decide)⟩

/-! ## Claim C1 -/

/-- Claim C1 counterexample: identity u has hidden shared document 1 and the
session selection is empty, yet the document's chunk still passes the
retrieval filter and lies in the retrieval scope, while the spec-worded
predicate excludes it — so after hiding, chunks of the hidden shared document
remain retrievable. -/
theorem hidden_doc_still_retrievable_counterexample :
    exRegStateHidden.hidden = [{ userId := "u", docId := 1, hiddenAt := 3 }] ∧
    doc_filter exSession "u" exCommonChunk = true ∧
    retrievalScope exRegStateHidden exSession "u" = [exCommonChunk] ∧
    specScopeEmptySelection exRegStateHidden "u" exCommonChunk = false := by
  refine ⟨rfl, rfl, rfl, rfl⟩

/-- Claim C1 (amended): under an empty per-session selection the retrieval
filter admits a chunk iff its indexed user id is the asking identity or the
COMMON marker; hide records are never consulted by retrieval, so hiding
leaves the retrieval scope unchanged; hiding affects only the resource
listing, which excludes hidden common documents. -/
theorem empty_selection_scope_amended (session : SessionRec) (userId : String)
    (hsel : session.selectedDocs = []) :
    (∀ c : ChunkEntry, doc_filter session userId c = true ↔
      (c.userId = userId ∨ c.userId = "COMMON")) ∧
    (∀ (st : RegState) (hider : String) (dId n : Nat),
      retrievalScope (unlink_common_resource st hider dId n).2 session userId =
        retrievalScope st session userId) ∧
    (∀ (st : RegState), ∀ d ∈ get_resources st userId,
      d.docType = "common" → isHidden st userId d.id = false) := by
  refine ⟨fun c => ?_, fun st hider dId n => ?_, fun st d hd hcommon => ?_⟩
  · simp [doc_filter, hsel]
  · unfold retrievalScope
    rw [unlink_chunks_unchanged]
  · obtain ⟨-, hcond⟩ := List.mem_filter.mp hd
    simp only [hcommon, beq_self_eq_true, true_and, Bool.and_eq_true,
      Bool.not_eq_true'] at hcond
    exact hcond.1

/-- Witness for C1 (amended): the COMMON marker admits the shared chunk. -/
theorem empty_selection_scope_amended_witness :
    doc_filter exSession "u" exCommonChunk = true :=
  ((empty_selection_scope_amended exSession "u" rfl).1 exCommonChunk).mpr
    (Or.inr rfl)

/-! ## Claim C2 -/

/-- Claim C2 counterexample: a shared document with hash h1 exists, yet
uploading bytes with that very hash succeeds — the duplicate check matches
same-owner documents only, so shared documents never trigger it. -/
theorem upload_shared_hash_not_rejected_counterexample :
    exCommonDoc ∈ exRegState.documents ∧ exCommonDoc.docType = "common" ∧
    exCommonDoc.fileHash = "h1" ∧
    (upload_resource exRegState "u" "copy.pdf" "h1" ["5G latency is 20ms."] 4 2 5).1
      = .ok () := by
  refine ⟨List.mem_cons_self _ _, rfl, rfl, rfl⟩

/-- Claim C2 (amended): upload fails with the duplicate error precisely when
an existing document owned by the uploading identity has the uploaded
content's hash — a shared document with the same hash does not block — and on
that failure no metadata row and no index entries are created. -/
theorem upload_duplicate_same_owner_amended (st : RegState)
    (userId filename fileHash : String) (chunks : List String)
    (sizeKb newDocId now : Nat) :
    ((∃ d ∈ st.documents, d.ownerUserId = some userId ∧ d.fileHash = fileHash) →
      (upload_resource st userId filename fileHash chunks sizeKb newDocId now).1 =
        .error (400, "Duplicate document already uploaded") ∧
      ((upload_resource st userId filename fileHash chunks sizeKb newDocId now).2).documents
        = st.documents ∧
      ((upload_resource st userId filename fileHash chunks sizeKb newDocId now).2).chunks
        = st.chunks) ∧
    ((∀ d ∈ st.documents, ¬(d.ownerUserId = some userId ∧ d.fileHash = fileHash)) →
      (upload_resource st userId filename fileHash chunks sizeKb newDocId now).1
        = .ok ()) := by
  constructor
  · rintro ⟨d, hd, h1, h2⟩
    have hsome : (st.documents.find? (fun x =>
        x.ownerUserId == some userId && x.fileHash == fileHash)).isSome :=
      List.find?_isSome.mpr ⟨d, hd, by simp [h1, h2]⟩
    obtain ⟨a, ha⟩ := Option.isSome_iff_exists.mp hsome
    simp only [upload_resource, ha]
    exact ⟨trivial, trivial, trivial⟩
  · intro h
    have hnone : st.documents.find? (fun x =>
        x.ownerUserId == some userId && x.fileHash == fileHash) = none := by
      rw [List.find?_eq_none]
      intro x hx
      simp only [Bool.and_eq_true, beq_iff_eq, not_and]
      exact fun h1 h2 => h x hx ⟨h1, h2⟩
    simp only [upload_resource, hnone]

/-- Witness for C2 (amended): a same-owner duplicate is rejected. -/
theorem upload_duplicate_same_owner_amended_witness :
    (upload_resource exPrivateState "alice" "again.txt" "h2" ["note body"] 1 7 8).1
      = .error (400, "Duplicate document already uploaded") :=
  ((upload_duplicate_same_owner_amended exPrivateState "alice" "again.txt" "h2"
      ["note body"] 1 7 8).1 ⟨exPrivateDoc, List.mem_cons_self _ _, rfl, rfl⟩).1

/-! ## Claim C7 -/

/-- Claim C7 counterexample: caller bob receives 403 Not allowed for another
identity's existing private document but 404 for an absent one — the two
errors are distinguishable, so the uniform not-found does not hold for
document operations. -/
theorem not_found_uniformity_counterexample :
    (delete_resource exPrivateState "bob" 1).1 = .error (403, "Not allowed") ∧
    (delete_resource exPrivateState "bob" 2).1 = .error (404, "Document not found") ∧
    (((403, "Not allowed") : Nat × String) ≠ (404, "Document not found")) := by
  refine ⟨rfl, rfl, by decide⟩

/-- Claim C7 (amended): session operations surface a uniform 404 Session not
found whether the session is absent or another identity's; document deletion
distinguishes: an absent document gives 404, while another identity's
existing private document gives 403 Not allowed. -/
theorem error_uniformity_amended (cs : ChatState) (userId : String) (sid : Nat)
    (st : RegState) (docId : Nat)
    (hsid : cs.sessions.find? (fun s => s.id == sid) = none ∨
      ∃ session, cs.sessions.find? (fun s => s.id == sid) = some session ∧
        session.userId ≠ userId) :
    get_session_messages cs userId sid = .error (404, "Session not found") ∧
    (update_memory cs userId sid []).1 = .error (404, "Session not found") ∧
    (∀ message retrieval netSummary gen a b c d,
      (send_message cs userId sid message retrieval netSummary gen a b c d).1 =
        .httpError 404 "Session not found") ∧
    (st.documents.find? (fun x => x.id == docId) = none →
      (delete_resource st userId docId).1 = .error (404, "Document not found")) ∧
    (∀ doc, st.documents.find? (fun x => x.id == docId) = some doc →
      doc.docType ≠ "common" → doc.ownerUserId ≠ some userId →
      (delete_resource st userId docId).1 = .error (403, "Not allowed")) := by
  refine ⟨?_, ?_, ?_, fun hnone => ?_, fun doc hfind hnc hno => ?_⟩
  · rcases hsid with hnone | ⟨session, hsome, hne⟩
    · unfold get_session_messages
      rw [hnone]
    · simp [get_session_messages, hsome, hne]
  · rcases hsid with hnone | ⟨session, hsome, hne⟩
    · unfold update_memory
      rw [hnone]
    · simp [update_memory, hsome, hne]
  · intro message retrieval netSummary gen a b c d
    rcases hsid with hnone | ⟨session, hsome, hne⟩
    · unfold send_message
      rw [hnone]
    · simp [send_message, hsome, hne]
  · unfold delete_resource
    rw [hnone]
  · simp [delete_resource, hfind, hnc, hno]

/-- Witness for C7 (amended): an absent session yields the uniform 404. -/
theorem error_uniformity_amended_witness :
    get_session_messages exChatState "mallory" 1 = .error (404, "Session not found") :=
  (error_uniformity_amended exChatState "mallory" 1 exPrivateState 1
    (Or.inr ⟨exSession, rfl, by decide⟩)).1

/-! ## Claim C8 -/

/-- Claim C8 counterexample: on an owned private document whose backing file
exists, the code removes the file first, then the index entries, then the
metadata row — not index entries, metadata, file as claimed. -/
theorem delete_order_counterexample :
    (delete_resource exPrivateState "alice" 1).2.1 =
      [DelOp.removeFile, DelOp.deleteIndex, DelOp.deleteMeta] ∧
    (delete_resource exPrivateState "alice" 1).2.1 ≠
      [DelOp.deleteIndex, DelOp.deleteMeta, DelOp.removeFile] := by
  refine ⟨rfl, by decide⟩

/-- Claim C8 (amended): deleting an owned private document succeeds and
removes the backing file bytes first (skipped when the file is missing), then
the index entries, then the metadata row; it succeeds even when the backing
file is already missing. -/
theorem delete_resource_order_amended (st : RegState) (userId : String)
    (docId : Nat) (doc : DocumentRec)
    (hfind : st.documents.find? (fun d => d.id == docId) = some doc)
    (htype : doc.docType ≠ "common")
    (howner : doc.ownerUserId = some userId) :
    (delete_resource st userId docId).1 = .ok () ∧
    (delete_resource st userId docId).2.1 =
      (if st.files.contains doc.path then [DelOp.removeFile] else []) ++
        [DelOp.deleteIndex, DelOp.deleteMeta] ∧
    ((delete_resource st userId docId).2.2).chunks =
      st.chunks.filter (fun c => c.docId ≠ docId) ∧
    ((delete_resource st userId docId).2.2).documents =
      st.documents.filter (fun d => d.id ≠ docId) ∧
    (st.files.contains doc.path = false →
      (delete_resource st userId docId).1 = .ok () ∧
      (delete_resource st userId docId).2.1 =
        [DelOp.deleteIndex, DelOp.deleteMeta]) := by
  have h1 : (doc.docType == "common") = false := by
    simp [htype]
  have h2 : (doc.ownerUserId != some userId) = false := by
    simp [howner]
  by_cases hc : doc.path ∈ st.files
  · simp [delete_resource, hfind, h1, h2, hc]
  · simp [delete_resource, hfind, h1, h2, hc]

/-- Witness for C8 (amended): deletion succeeds with the file already
missing, and then performs only the index and metadata steps. -/
theorem delete_resource_order_amended_witness :
    (delete_resource exPrivateStateNoFile "alice" 1).1 = .ok () ∧
    (delete_resource exPrivateStateNoFile "alice" 1).2.1 =
      [DelOp.deleteIndex, DelOp.deleteMeta] :=
  (delete_resource_order_amended exPrivateStateNoFile "alice" 1 exPrivateDoc
    rfl (by decide) rfl).2.2.2.2 rfl

/-! ## Claim C9 -/

/-- Claim C9 counterexample: hiding the same shared document twice leaves two
hide records, while one call leaves one — the hide-record state after two
calls is not identical to the state after one. -/
theorem hide_twice_two_records_counterexample :
    exRegStateHiddenTwice.hidden ≠ exRegStateHidden.hidden ∧
    exRegStateHiddenTwice.hidden.length = 2 ∧
    exRegStateHidden.hidden.length = 1 := by
  refine ⟨by decide, rfl, rfl⟩

/-- Claim C9 (amended): hide fails with the invalid-document error unless the
target exists and is shared; each successful call appends a fresh hide record
— a second call adds a second record rather than leaving the record state
identical — while the induced hidden-visibility predicate is unchanged by the
repeat. -/
theorem hide_appends_record_amended (st : RegState) (userId : String)
    (docId : Nat) (doc : DocumentRec) (n1 n2 : Nat)
    (hfind : st.documents.find? (fun d => d.id == docId) = some doc)
    (hcommon : doc.docType = "common") :
    (unlink_common_resource st userId docId n1).1 = .ok () ∧
    ((unlink_common_resource st userId docId n1).2).hidden =
      st.hidden ++ [{ userId := userId, docId := docId, hiddenAt := n1 }] ∧
    ((unlink_common_resource (unlink_common_resource st userId docId n1).2
        userId docId n2).2).hidden =
      st.hidden ++ [{ userId := userId, docId := docId, hiddenAt := n1 },
                    { userId := userId, docId := docId, hiddenAt := n2 }] ∧
    (∀ (u : String) (d2 : Nat),
      isHidden ((unlink_common_resource (unlink_common_resource st userId docId n1).2
          userId docId n2).2) u d2 =
        isHidden ((unlink_common_resource st userId docId n1).2) u d2) ∧
    (∀ (st2 : RegState) (d2 n : Nat),
      (st2.documents.find? (fun d => d.id == d2) = none ∨
        ∃ dd, st2.documents.find? (fun d => d.id == d2) = some dd ∧
          dd.docType ≠ "common") →
      (unlink_common_resource st2 userId d2 n).1 = .error (400, "Invalid document")) := by
  have hstep : ∀ (s : RegState) (m : Nat),
      s.documents.find? (fun d => d.id == docId) = some doc →
      unlink_common_resource s userId docId m =
        (.ok (), { s with hidden := s.hidden ++
            [{ userId := userId, docId := docId, hiddenAt := m }] }) := by
    intro s m hf
    simp [unlink_common_resource, hf, hcommon]
  have hfind1 : ((unlink_common_resource st userId docId n1).2).documents.find?
      (fun d => d.id == docId) = some doc := by
    rw [unlink_documents_unchanged]
    exact hfind
  refine ⟨?_, ?_, ?_, fun u d2 => ?_, fun st2 d2 n hd => ?_⟩
  · rw [hstep st n1 hfind]
  · rw [hstep st n1 hfind]
  · rw [hstep _ n2 hfind1, hstep st n1 hfind]
    simp
  · rw [hstep _ n2 hfind1, hstep st n1 hfind]
    simp [isHidden]
  · rcases hd with hnone | ⟨dd, hf, hne⟩
    · unfold unlink_common_resource
      rw [hnone]
    · simp [unlink_common_resource, hf, hne]

/-- Witness for C9 (amended): two hide calls on the shared document append
two records. -/
theorem hide_appends_record_amended_witness :
    (unlink_common_resource exRegState "u" 1 3).1 = .ok () ∧
    ((unlink_common_resource (unlink_common_resource exRegState "u" 1 3).2
        "u" 1 4).2).hidden =
      exRegState.hidden ++ [{ userId := "u", docId := 1, hiddenAt := 3 },
                           { userId := "u", docId := 1, hiddenAt := 4 }] :=
  ⟨(hide_appends_record_amended exRegState "u" 1 exCommonDoc 3 4 rfl rfl).1,
   (hide_appends_record_amended exRegState "u" 1 exCommonDoc 3 4 rfl rfl).2.2.1⟩

/-! ## Sorting lemmas for the history query -/

theorem insertByCreatedDesc_append_last (m : MessageRec) (l : List MessageRec)
    (h : ∀ x ∈ l, ¬ x.createdAt ≤ m.createdAt) :
    insertByCreatedDesc m l = l ++ [m] := by
  induction l with
  | nil => rfl
  | cons x xs ih =>
      rw [insertByCreatedDesc, if_neg (h x (List.mem_cons_self x xs)),
        ih (fun y hy => h y (List.mem_cons_of_mem x hy))]
      rfl

theorem sortByCreatedDesc_of_ascending (l : List MessageRec)
    (h : l.Pairwise (fun a b => a.createdAt < b.createdAt)) :
    sortByCreatedDesc l = l.reverse := by
  induction l with
  | nil => rfl
  | cons m ms ih =>
      rw [sortByCreatedDesc, ih h.of_cons, insertByCreatedDesc_append_last,
        List.reverse_cons]
      intro x hx
      rw [List.mem_reverse] at hx
      have := (List.pairwise_cons.mp h).1 x hx
      omega

theorem fetchHistory_eq_drop (msgs : List MessageRec) (sid : Nat)
    (hasc : (msgs.filter (fun m =>
        m.sessionId == sid && m.includedInContext)).Pairwise
      (fun a b => a.createdAt < b.createdAt)) :
    fetchHistory msgs sid =
      (msgs.filter (fun m => m.sessionId == sid && m.includedInContext)).drop
        ((msgs.filter (fun m =>
          m.sessionId == sid && m.includedInContext)).length - 12) := by
  unfold fetchHistory
  rw [sortByCreatedDesc_of_ascending _ hasc]
  have h := (List.rtake_eq_reverse_take_reverse
    (msgs.filter (fun m => m.sessionId == sid && m.includedInContext)) 12).symm
  unfold List.rtake at h
  exact h

/-! ## Claim C5 -/

/-- Claim C5: with per-session timestamps strictly increasing, the assembled
history block holds at most 12 messages — exactly the most recent 12 included
messages of the session, in chronological order, when more exist — rendered
as Role-prefixed lines, with the fixed placeholder when no included message
exists. -/
theorem history_block_bounded_recent_chronological (msgs : List MessageRec)
    (sid : Nat)
    (hasc : (msgs.filter (fun m =>
        m.sessionId == sid && m.includedInContext)).Pairwise
      (fun a b => a.createdAt < b.createdAt)) :
    (fetchHistory msgs sid).length ≤ 12 ∧
    fetchHistory msgs sid =
      (msgs.filter (fun m => m.sessionId == sid && m.includedInContext)).drop
        ((msgs.filter (fun m =>
          m.sessionId == sid && m.includedInContext)).length - 12) ∧
    (fetchHistory msgs sid).Pairwise (fun a b => a.createdAt < b.createdAt) ∧
    (msgs.filter (fun m => m.sessionId == sid && m.includedInContext) = [] →
      historyText (fetchHistory msgs sid) = "No prior messages.") ∧
    (fetchHistory msgs sid ≠ [] →
      historyText (fetchHistory msgs sid) =
        String.intercalate "\n" ((fetchHistory msgs sid).map (fun m =>
          (if m.role == "user" then "User" else "Assistant") ++ ": " ++ m.content))) := by
  have hdrop := fetchHistory_eq_drop msgs sid hasc
  refine ⟨?_, hdrop, ?_, fun hnil => ?_, fun hne => ?_⟩
  · rw [hdrop, List.length_drop]
    omega
  · rw [hdrop]
    exact hasc.sublist (List.drop_sublist _ _)
  · rw [hdrop, hnil]
    rfl
  · have hb : (fetchHistory msgs sid).isEmpty = false :=
      List.isEmpty_eq_false.mpr hne
    simp [historyText, hb]

/-- Witness for C5: a session with 13 included messages keeps the most recent
12. -/
theorem history_block_bounded_recent_chronological_witness :
    (fetchHistory exManyMessages 1).length ≤ 12 ∧
    fetchHistory exManyMessages 1 =
      (exManyMessages.filter (fun m => m.sessionId == 1 && m.includedInContext)).drop 1 :=
  ⟨(history_block_bounded_recent_chronological exManyMessages 1 (by decide)).1,
   (history_block_bounded_recent_chronological exManyMessages 1 (by decide)).2.1⟩

/-! ## Claim C6 -/

/-- Claim C6: memory update is a full replace — after the call a message of
the session is included iff its id was supplied, omitted messages become
excluded regardless of their previous flag, and messages of other sessions
are untouched. -/
theorem update_memory_full_replace (st : ChatState) (userId : String)
    (sid : Nat) (ids : List Nat) (session : SessionRec)
    (hfind : st.sessions.find? (fun s => s.id == sid) = some session)
    (howner : session.userId = userId) :
    (update_memory st userId sid ids).1 = .ok () ∧
    ((update_memory st userId sid ids).2).messages =
      st.messages.map (fun m =>
        if m.sessionId == sid then
          { m with includedInContext := ids.contains m.id }
        else m) ∧
    (∀ m ∈ ((update_memory st userId sid ids).2).messages,
      m.sessionId = sid → (m.includedInContext = true ↔ m.id ∈ ids)) ∧
    (∀ m ∈ st.messages, m.sessionId ≠ sid →
      m ∈ ((update_memory st userId sid ids).2).messages) ∧
    ((update_memory st userId sid ids).2).sessions = st.sessions := by
  have hred : update_memory st userId sid ids =
      (.ok (), { st with messages := st.messages.map (fun m =>
        if m.sessionId == sid then
          { m with includedInContext := ids.contains m.id }
        else m) }) := by
    simp [update_memory, hfind, howner]
  rw [hred]
  refine ⟨rfl, rfl, ?_, ?_, rfl⟩
  · intro m hm hsid2
    simp only [List.mem_map] at hm
    obtain ⟨m0, hm0, hmap⟩ := hm
    by_cases h : m0.sessionId == sid
    · rw [if_pos h] at hmap
      subst hmap
      simp
    · rw [if_neg h] at hmap
      subst hmap
      exact absurd hsid2 (by simpa using h)
  · intro m hm hne
    have hmem := List.mem_map_of_mem (fun m : MessageRec =>
      if m.sessionId == sid then
        { m with includedInContext := ids.contains m.id }
      else m) hm
    simpa [hne] using hmem

/-- Witness for C6: from three included messages, selecting only the second
yields the flags false, true, false. -/
theorem update_memory_full_replace_witness :
    ((update_memory exMemoryState "u" 1 [2]).2).messages.map
      (fun m => m.includedInContext) = [false, true, false] := by
  have h := (update_memory_full_replace exMemoryState "u" 1 [2] exSession rfl rfl).2.1
  rw [h]
  rfl

/-! ## Claim C4 -/

theorem map_key_updatedAt_after_title (sessions : List SessionRec) (sid : Nat)
    (t : String) :
    ((sessions.map (fun s => if s.id == sid then { s with title := t } else s)).map
      (fun s => (s.id, s.updatedAt))) =
      sessions.map (fun s => (s.id, s.updatedAt)) := by
  rw [List.map_map]
  apply List.map_congr_left
  intro s _
  by_cases h : s.id == sid <;> simp [Function.comp, h]

/-- Claim C4: when the generation call raises before yielding any fragment,
the turn's outcome is the broken stream, the session's log afterwards holds
the appended user message and no assistant message, and every session's
updated_at is unchanged. -/
theorem gen_failure_keeps_user_message_only (st : ChatState) (userId : String)
    (sid : Nat) (message err : String)
    (retrieval : Except String (List RetrievedDoc))
    (netSummary : Except String String)
    (userMsgId asstMsgId now1 now2 : Nat) (session : SessionRec)
    (hfind : st.sessions.find? (fun s => s.id == sid) = some session)
    (howner : session.userId = userId)
    (hret : session.stype = "knowledge" → ∃ ds, retrieval = .ok ds) :
    (send_message st userId sid message retrieval netSummary (.failEarly err)
        userMsgId asstMsgId now1 now2).1 = .streamFailed err ∧
    ((send_message st userId sid message retrieval netSummary (.failEarly err)
        userMsgId asstMsgId now1 now2).2).messages =
      st.messages ++
        [{ id := userMsgId, sessionId := sid, userId := userId, role := "user",
           content := message, shortContent := compress_message message,
           includedInContext := true, createdAt := now1, sources := [] }] ∧
    ((send_message st userId sid message retrieval netSummary (.failEarly err)
        userMsgId asstMsgId now1 now2).2).sessions.map (fun s => (s.id, s.updatedAt)) =
      st.sessions.map (fun s => (s.id, s.updatedAt)) := by
  simp only [send_message, hfind]
  rw [if_neg (show ¬(session.userId ≠ userId) by simp [howner])]
  by_cases hk : session.stype = "knowledge"
  · obtain ⟨ds, hds⟩ := hret hk
    subst hds
    rw [if_neg (show ¬(((session.stype == "knowledge") &&
        ((knowledgeExtra (.ok ds)).2).isNone) = true) by simp [hk, knowledgeExtra])]
    refine ⟨rfl, rfl, ?_⟩
    dsimp only
    split
    · exact map_key_updatedAt_after_title st.sessions sid _
    · rfl
  · rw [if_neg (show ¬(((session.stype == "knowledge") &&
        ((knowledgeExtra retrieval).2).isNone) = true) by simp [hk])]
    refine ⟨rfl, rfl, ?_⟩
    dsimp only
    split
    · exact map_key_updatedAt_after_title st.sessions sid _
    · rfl

/-- Witness for C4: a failing generation on the knowledge session leaves only
the user message. -/
theorem gen_failure_keeps_user_message_only_witness :
    (send_message exChatState "u" 1 "hello" (.ok []) (.ok "net") (.failEarly "boom")
        10 11 5 6).1 = .streamFailed "boom" ∧
    ((send_message exChatState "u" 1 "hello" (.ok []) (.ok "net") (.failEarly "boom")
        10 11 5 6).2).sessions.map (fun s => (s.id, s.updatedAt)) =
      exChatState.sessions.map (fun s => (s.id, s.updatedAt)) :=
  ⟨(gen_failure_keeps_user_message_only exChatState "u" 1 "hello" "boom" (.ok [])
      (.ok "net") 10 11 5 6 exSession rfl rfl (fun _ => ⟨[], rfl⟩)).1,
   (gen_failure_keeps_user_message_only exChatState "u" 1 "hello" "boom" (.ok [])
      (.ok "net") 10 11 5 6 exSession rfl rfl (fun _ => ⟨[], rfl⟩)).2.2⟩

/-! ## Claim C3 -/

/-- Claim C3 (code-bug evaluation): in a knowledge-mode turn whose retrieval
call raises, the warning string is computed for the auxiliary context as
specified, yet send_message aborts the turn with a 500 instead of streaming:
the frozen-sources line reads the local docs variable, unbound when retrieval
raised, so the NameError is caught as an LLM error before streaming starts. -/
theorem retrieval_failure_aborts_turn_bug :
    (knowledgeExtra (.error "index down")).1 =
      "(Warning: document retrieval failed: index down)" ∧
    (send_message exChatState "u" 1 "what changed" (.error "index down")
        (.ok "summary") (.ok ["Latency", " is", " 20ms."]) 10 11 5 6).1 =
      .httpError 500 "LLM error: NameError on docs" :=
  ⟨rfl, rfl⟩

end RocBackend
